import Mathlib

/-!
Verification of the solar event series calculator (`src/calculator.py`,
class `SunCalculator`): the component that, given a latitude / longitude /
time-zone triple and a year, produces the day-indexed series of sunrise,
solar-noon and sunset times for every calendar day of that year, containing
the polar-day/polar-night singularity as per-day absent values.

Embedding conventions, all taken from the source:

* Python `datetime.date` objects are totally ordered and support
  `+ timedelta(days=1)` exactly as their proleptic Gregorian ordinals
  (`date.toordinal`); we therefore model a date as its ordinal (a `Nat`)
  and construct ordinals from (year, month, day) with the same arithmetic
  the Python `datetime` module uses (`_days_before_year`,
  `_days_before_month`, `_is_leap`).
* The third-party ephemeris `astral.sun.sun(observer, date, tzinfo)` is a
  black-box collaborator.  It is modelled as a function parameter returning
  either the three zoned instants or a raised exception; Python exceptions
  are split into `ValueError` (the only class the calculator catches) and
  every other exception class, which propagates.
* A zoned instant (`datetime.datetime` rendered in the requested time
  zone) carries wall-clock fields `hour ∈ [0,23]`, `minute ∈ [0,59]`,
  `second ∈ [0,59]` enforced by the `datetime` constructor; we model them
  as `Fin 24` / `Fin 60` / `Fin 60`, plus the calendar date and the
  microsecond, which the calculator ignores.
* Python float arithmetic on the tiny expressions involved
  (`hour + minute/60 + second/3600`) is modelled exactly over `ℚ`.
-/

/-- Wall-clock instant as rendered in a concrete time zone: the fields of a
Python `datetime.datetime` that the calculator reads.  The constructor
invariants of `datetime` put `hour` in `[0,23]`, `minute` and `second` in
`[0,59]`. -/
structure ZonedDT where
  dateOrd : Nat
  hour : Fin 24
  minute : Fin 60
  second : Fin 60
  microsecond : Nat
deriving DecidableEq

/-- The three instants the `astral.sun.sun` call returns (the dictionary
keys the calculator reads: `'sunrise'`, `'noon'`, `'sunset'`). -/
structure SunTimes where
  sunrise : ZonedDT
  noon : ZonedDT
  sunset : ZonedDT
deriving DecidableEq

/-- Python exceptions, split by the only distinction the calculator makes:
`except ValueError` catches exactly the `valueError` constructor, every
other exception class propagates. -/
inductive PyErr where
  | valueError : String → PyErr
  | otherError : String → PyErr
deriving DecidableEq

/-- The observer position handed to the ephemeris
(`self.location.observer`, built from the constructor's latitude and
longitude). -/
structure Observer where
  latitude : ℚ
  longitude : ℚ
deriving DecidableEq

/-- The state a `SunCalculator` instance holds after `__init__`: latitude,
longitude and the time-zone string. -/
structure SunCalculator where
  latitude : ℚ
  longitude : ℚ
  timezone : String
deriving DecidableEq

/-- The `self.location.observer` value of a calculator instance. -/
def SunCalculator.observer (c : SunCalculator) : Observer :=
  ⟨c.latitude, c.longitude⟩

/-- The black-box ephemeris collaborator
`sun(observer, date=d, tzinfo=tz)`: returns the three zoned instants or
raises. -/
def Ephemeris : Type :=
  Observer → Nat → String → Except PyErr SunTimes

/-- Python's `datetime._is_leap`: divisible by 4, except centuries not
divisible by 400. -/
def isLeap (y : Nat) : Bool :=
  y % 4 == 0 && (y % 100 != 0 || y % 400 == 0)

/-- Number of days in a Gregorian year. -/
def daysInYear (y : Nat) : Nat :=
  if isLeap y then 366 else 365

/-- Python's `datetime._days_before_year`. -/
def daysBeforeYear (y : Nat) : Nat :=
  (y - 1) * 365 + (y - 1) / 4 - (y - 1) / 100 + (y - 1) / 400

/-- Python's `datetime._DAYS_BEFORE_MONTH` table. -/
def daysBeforeMonthTable : Nat → Nat
  | 1 => 0
  | 2 => 31
  | 3 => 59
  | 4 => 90
  | 5 => 120
  | 6 => 151
  | 7 => 181
  | 8 => 212
  | 9 => 243
  | 10 => 273
  | 11 => 304
  | 12 => 334
  | _ => 0

/-- Python's `datetime._days_before_month`. -/
def daysBeforeMonth (y m : Nat) : Nat :=
  daysBeforeMonthTable m + (if 2 < m && isLeap y then 1 else 0)

/-- Python's `date(y, m, d).toordinal()`: the proleptic Gregorian ordinal,
with 0001-01-01 as ordinal 1.  `date` comparison is ordinal comparison and
`+ timedelta(days=1)` is ordinal `+ 1`. -/
def toOrdinal (y m d : Nat) : Nat :=
  daysBeforeYear y + daysBeforeMonth y m + d

/-- The conversion `hour + minute / 60.0 + second / 3600.0`: the decimal hour-of-day
conversion in `calculate_year` (lines 77–79), applied to the wall-clock
components of a zoned instant. -/
def toHour (t : ZonedDT) : ℚ :=
  (t.hour : ℚ) + (t.minute : ℚ) / 60 + (t.second : ℚ) / 3600

/-- The output tuple of `calculate_year`:
`(dates, sunrise_times, noon_times, sunset_times)`, where the time lists
hold floats or `None`. -/
def YearOut : Type :=
  List Nat × List (Option ℚ) × List (Option ℚ) × List (Option ℚ)

/-- Whether an ephemeris call outcome is an exception the calculator does
not catch (anything but `ValueError`). -/
def isOtherE : Except PyErr SunTimes → Bool
  | .error (.otherError _) => true
  | _ => false

/-- The per-day contribution of one event to its time list: the decimal
hour on success, `None` when the day's `sun` call raised (caught)
`ValueError`. -/
def dayOpt (f : SunTimes → ZonedDT) (r : Except PyErr SunTimes) : Option ℚ :=
  match r with
  | .ok s => some (toHour (f s))
  | .error _ => none

/-- The `while current_date <= end_date` loop of `calculate_year`
(lines 67–95), with the iteration count made explicit: each pass either
handles one date (appending to all four lists) or re-raises an uncaught
exception, then advances `current_date` by one day.  `n` is the number of
dates still to visit (`end_date`'s ordinal + 1 − `current_date`'s
ordinal), which decreases by one per pass. -/
def calcGo (eph : Ephemeris) (obs : Observer) (tz : String) :
    Nat → Nat → Except PyErr YearOut
  | 0, _ => .ok ([], [], [], [])
  | n + 1, cur =>
    match eph obs cur tz with
    | .ok s =>
      match calcGo eph obs tz n (cur + 1) with
      | .ok (ds, rs, ns, ss) =>
        .ok (cur :: ds, some (toHour s.sunrise) :: rs,
             some (toHour s.noon) :: ns, some (toHour s.sunset) :: ss)
      | .error e => .error e
    | .error (.valueError _) =>
      match calcGo eph obs tz n (cur + 1) with
      | .ok (ds, rs, ns, ss) =>
        .ok (cur :: ds, none :: rs, none :: ns, none :: ss)
      | .error e => .error e
    | .error (.otherError m) => .error (.otherError m)

/-- Method `SunCalculator.calculate_year(year)` (lines 41–97): iterate the closed
date range `[date(year,1,1), date(year,12,31)]`, returning the four lists,
or re-raising the first uncaught exception.  The `year=None` default
(resolved by the caller to the current year) is outside the model: `year`
is explicit. -/
def calculate_year (eph : Ephemeris) (c : SunCalculator) (year : Nat) :
    Except PyErr YearOut :=
  calcGo eph c.observer c.timezone
    (toOrdinal year 12 31 + 1 - toOrdinal year 1 1) (toOrdinal year 1 1)

/-- Method `SunCalculator.calculate_day(target_date)` (lines 99–114): one
ephemeris call; return `(s['sunrise'], s['sunset'])`, or `(None, None)` on
`ValueError`, re-raising anything else. -/
def calculate_day (eph : Ephemeris) (c : SunCalculator) (d : Nat) :
    Except PyErr (Option ZonedDT × Option ZonedDT) :=
  match eph c.observer d c.timezone with
  | .ok s => .ok (some s.sunrise, some s.sunset)
  | .error (.valueError _) => .ok (none, none)
  | .error (.otherError m) => .error (.otherError m)

/-- The `dates` list of a `calculate_year` result (empty when the call
raised). -/
def datesOf : Except PyErr YearOut → List Nat
  | .ok o => o.1
  | .error _ => []

/-- The `sunrise_times` list of a `calculate_year` result. -/
def risesOf : Except PyErr YearOut → List (Option ℚ)
  | .ok o => o.2.1
  | .error _ => []

/-- The `noon_times` list of a `calculate_year` result. -/
def noonsOf : Except PyErr YearOut → List (Option ℚ)
  | .ok o => o.2.2.1
  | .error _ => []

/-- The `sunset_times` list of a `calculate_year` result. -/
def setsOf : Except PyErr YearOut → List (Option ℚ)
  | .ok o => o.2.2.2
  | .error _ => []

/-- Whether a `calculate_year` call returned normally. -/
def yearOk : Except PyErr YearOut → Bool
  | .ok _ => true
  | .error _ => false

/-- Wall-clock order on zoned instants restricted to the components the
hour conversion reads: lexicographic on (hour, minute, second). -/
def wallLt (a b : ZonedDT) : Prop :=
  (a.hour : Nat) < b.hour ∨
    ((a.hour : Nat) = b.hour ∧
      ((a.minute : Nat) < b.minute ∨
        ((a.minute : Nat) = b.minute ∧ (a.second : Nat) < b.second)))

instance (a b : ZonedDT) : Decidable (wallLt a b) := by
  unfold wallLt; infer_instance

/-! ### Concrete fixtures used by witnesses and counterexamples -/

/-- A fixed successful ephemeris answer: sunrise 06:30:00, solar noon
12:02:15, sunset 18:30:00 (wall clock). -/
def st0 : SunTimes :=
  ⟨⟨738887, 6, 30, 0, 0⟩, ⟨738887, 12, 2, 15, 0⟩, ⟨738887, 18, 30, 0, 0⟩⟩

/-- A calculator instance at the equator with the `"UTC"` default zone. -/
def c0 : SunCalculator := ⟨0, 0, "UTC"⟩

/-- An Arctic-style calculator instance (Svalbard). -/
def cArctic : SunCalculator := ⟨782232 / 10000, 156267 / 10000, "Arctic/Longyearbyen"⟩

/-- An ephemeris that succeeds on every date. -/
def eph0 : Ephemeris := fun _ _ _ => .ok st0

/-- An ephemeris that signals the polar singularity (`ValueError`) on
2025-06-01 and succeeds on every other date. -/
def ephArctic : Ephemeris := fun _ d _ =>
  if d = toOrdinal 2025 6 1 then
    .error (.valueError "Sun never reaches the horizon")
  else .ok st0

/-- A fixed ephemeris answer whose wall-clock sunset hour (01:00, past
local midnight) is smaller than its wall-clock sunrise hour (23:00). -/
def stInv : SunTimes :=
  ⟨⟨738887, 23, 0, 0, 0⟩, ⟨738887, 11, 0, 0, 0⟩, ⟨738888, 1, 0, 0, 0⟩⟩

/-- An ephemeris returning `stInv` on every date. -/
def ephInv : Ephemeris := fun _ _ _ => .ok stInv

/-- An ephemeris that always raises an uncaught (non-`ValueError`)
exception. -/
def ephBad : Ephemeris := fun _ _ _ => .error (.otherError "zoneinfo lookup failed")

/-! ### Helper lemmas about the hour conversion -/

/-- The conversion over a common denominator. -/
lemma toHour_eq (t : ZonedDT) :
    toHour t = ((3600 * (t.hour : Nat) + 60 * (t.minute : Nat) + (t.second : Nat) : Nat) : ℚ) / 3600 := by
  unfold toHour
  push_cast
  ring

lemma toHour_nonneg (t : ZonedDT) : 0 ≤ toHour t := by
  rw [toHour_eq]
  positivity

lemma toHour_lt_24 (t : ZonedDT) : toHour t < 24 := by
  rw [toHour_eq]
  rw [div_lt_iff₀ (by norm_num : (0:ℚ) < 3600)]
  have h1 : (t.hour : Nat) ≤ 23 := Nat.lt_succ_iff.mp t.hour.isLt
  have h2 : (t.minute : Nat) ≤ 59 := Nat.lt_succ_iff.mp t.minute.isLt
  have h3 : (t.second : Nat) ≤ 59 := Nat.lt_succ_iff.mp t.second.isLt
  have : (3600 * (t.hour : Nat) + 60 * (t.minute : Nat) + (t.second : Nat) : Nat) ≤ 86399 := by
    omega
  calc ((3600 * (t.hour : Nat) + 60 * (t.minute : Nat) + (t.second : Nat) : Nat) : ℚ)
      ≤ (86399 : ℚ) := by exact_mod_cast this
    _ < 24 * 3600 := by norm_num

lemma toHour_strictMono {a b : ZonedDT} (h : wallLt a b) : toHour a < toHour b := by
  rw [toHour_eq, toHour_eq]
  rw [div_lt_div_iff_of_pos_right (by norm_num : (0:ℚ) < 3600)]
  have ham : (a.minute : Nat) ≤ 59 := Nat.lt_succ_iff.mp a.minute.isLt
  have has : (a.second : Nat) ≤ 59 := Nat.lt_succ_iff.mp a.second.isLt
  have hbm : (b.minute : Nat) ≤ 59 := Nat.lt_succ_iff.mp b.minute.isLt
  have hbs : (b.second : Nat) ≤ 59 := Nat.lt_succ_iff.mp b.second.isLt
  have : (3600 * (a.hour : Nat) + 60 * (a.minute : Nat) + (a.second : Nat) : Nat)
      < 3600 * (b.hour : Nat) + 60 * (b.minute : Nat) + (b.second : Nat) := by
    rcases h with h | ⟨he, h | ⟨he2, h⟩⟩ <;> omega
  exact_mod_cast this

/-! ### Calendar arithmetic: the loop's iteration count -/

/-- The closed date range `[year-01-01, year-12-31]` holds exactly
`daysInYear year` ordinals. -/
lemma yearLen_eq (y : Nat) :
    toOrdinal y 12 31 + 1 - toOrdinal y 1 1 = daysInYear y := by
  unfold toOrdinal daysBeforeMonth daysBeforeMonthTable daysInYear
  by_cases h : isLeap y <;> simp [h]

/-! ### Characterization of the iteration -/

/-- When no uncaught exception occurs on any date of the window, the loop
returns normally and each list is the pointwise image of the date range:
the date itself, and `dayOpt` of the day's ephemeris outcome for each of
the three events. -/
lemma calcGo_ok (eph : Ephemeris) (obs : Observer) (tz : String) :
    ∀ n cur, (∀ j, j < n → isOtherE (eph obs (cur + j) tz) = false) →
      calcGo eph obs tz n cur = .ok (List.range' cur n,
        (List.range' cur n).map (fun d => dayOpt SunTimes.sunrise (eph obs d tz)),
        (List.range' cur n).map (fun d => dayOpt SunTimes.noon (eph obs d tz)),
        (List.range' cur n).map (fun d => dayOpt SunTimes.sunset (eph obs d tz))) := by
  intro n
  induction n with
  | zero => intro cur _; rfl
  | succ n ih =>
    intro cur h
    have h0 : isOtherE (eph obs cur tz) = false := by
      have := h 0 (Nat.succ_pos n)
      simpa using this
    have hrest : ∀ j, j < n → isOtherE (eph obs (cur + 1 + j) tz) = false := by
      intro j hj
      have := h (j + 1) (by omega)
      simpa [Nat.add_assoc, Nat.add_comm 1 j] using this
    have hrec := ih (cur + 1) hrest
    rw [List.range'_succ]
    unfold calcGo
    cases he : eph obs cur tz with
    | ok s => simp [hrec, dayOpt, he]
    | error e =>
      cases e with
      | valueError m => simp [hrec, dayOpt, he]
      | otherError m => rw [he] at h0; simp [isOtherE] at h0

/-- Shape of a normal return: in each loop pass all four lists are
appended together, so the three time lists track the dates list in length,
and at every index the three event entries are `None` together. -/
lemma calcGo_shape (eph : Ephemeris) (obs : Observer) (tz : String) :
    ∀ n cur out, calcGo eph obs tz n cur = .ok out →
      out.2.1.length = out.1.length ∧ out.2.2.1.length = out.1.length ∧
      out.2.2.2.length = out.1.length ∧
      ∀ i : Nat, (out.2.1[i]? = some none ↔ out.2.2.1[i]? = some none) ∧
           (out.2.1[i]? = some none ↔ out.2.2.2[i]? = some none) := by
  intro n
  induction n with
  | zero =>
    intro cur out h
    unfold calcGo at h
    cases h
    simp
  | succ n ih =>
    intro cur out h
    unfold calcGo at h
    cases he : eph obs cur tz with
    | ok s =>
      rw [he] at h
      cases hrec : calcGo eph obs tz n (cur + 1) with
      | ok o =>
        obtain ⟨ds, rs, ns, ss⟩ := o
        rw [hrec] at h
        cases h
        obtain ⟨l1, l2, l3, hidx⟩ := ih (cur + 1) (ds, rs, ns, ss) hrec
        refine ⟨by simpa using l1, by simpa using l2, by simpa using l3, ?_⟩
        intro i
        cases i with
        | zero => simp
        | succ i => simpa using hidx i
      | error e => rw [hrec] at h; cases h
    | error e =>
      cases e with
      | valueError m =>
        rw [he] at h
        cases hrec : calcGo eph obs tz n (cur + 1) with
        | ok o =>
          obtain ⟨ds, rs, ns, ss⟩ := o
          rw [hrec] at h
          cases h
          obtain ⟨l1, l2, l3, hidx⟩ := ih (cur + 1) (ds, rs, ns, ss) hrec
          refine ⟨by simpa using l1, by simpa using l2, by simpa using l3, ?_⟩
          intro i
          cases i with
          | zero => simp
          | succ i => simpa using hidx i
        | error e2 => rw [hrec] at h; cases h
      | otherError m => rw [he] at h; cases h

/-- Every present value in a normal return comes from the hour conversion,
so it lies in `[0, 24)`. -/
lemma calcGo_mem_bound (eph : Ephemeris) (obs : Observer) (tz : String) :
    ∀ n cur out, calcGo eph obs tz n cur = .ok out →
      ∀ v : ℚ, (some v ∈ out.2.1 ∨ some v ∈ out.2.2.1 ∨ some v ∈ out.2.2.2) →
        0 ≤ v ∧ v < 24 := by
  intro n
  induction n with
  | zero =>
    intro cur out h v hv
    unfold calcGo at h
    cases h
    simp at hv
  | succ n ih =>
    intro cur out h v hv
    unfold calcGo at h
    cases he : eph obs cur tz with
    | ok s =>
      rw [he] at h
      cases hrec : calcGo eph obs tz n (cur + 1) with
      | ok o =>
        obtain ⟨ds, rs, ns, ss⟩ := o
        rw [hrec] at h
        cases h
        simp only [List.mem_cons] at hv
        rcases hv with (h1 | h1) | (h1 | h1) | (h1 | h1)
        · rcases Option.some.inj h1 with rfl
          exact ⟨toHour_nonneg _, toHour_lt_24 _⟩
        · exact ih (cur + 1) (ds, rs, ns, ss) hrec v (Or.inl h1)
        · rcases Option.some.inj h1 with rfl
          exact ⟨toHour_nonneg _, toHour_lt_24 _⟩
        · exact ih (cur + 1) (ds, rs, ns, ss) hrec v (Or.inr (Or.inl h1))
        · rcases Option.some.inj h1 with rfl
          exact ⟨toHour_nonneg _, toHour_lt_24 _⟩
        · exact ih (cur + 1) (ds, rs, ns, ss) hrec v (Or.inr (Or.inr h1))
      | error e => rw [hrec] at h; cases h
    | error e =>
      cases e with
      | valueError m =>
        rw [he] at h
        cases hrec : calcGo eph obs tz n (cur + 1) with
        | ok o =>
          obtain ⟨ds, rs, ns, ss⟩ := o
          rw [hrec] at h
          cases h
          simp only [List.mem_cons] at hv
          rcases hv with (h1 | h1) | (h1 | h1) | (h1 | h1)
          · cases h1
          · exact ih (cur + 1) (ds, rs, ns, ss) hrec v (Or.inl h1)
          · cases h1
          · exact ih (cur + 1) (ds, rs, ns, ss) hrec v (Or.inr (Or.inl h1))
          · cases h1
          · exact ih (cur + 1) (ds, rs, ns, ss) hrec v (Or.inr (Or.inr h1))
        | error e2 => rw [hrec] at h; cases h
      | otherError m => rw [he] at h; cases h

/-- An uncaught exception on a date of the window, with every earlier date
free of uncaught exceptions, propagates out of the loop unchanged. -/
lemma calcGo_error (eph : Ephemeris) (obs : Observer) (tz : String) (m : String) :
    ∀ n i cur, i < n → (∀ j, j < i → isOtherE (eph obs (cur + j) tz) = false) →
      eph obs (cur + i) tz = .error (.otherError m) →
      calcGo eph obs tz n cur = .error (.otherError m) := by
  intro n
  induction n with
  | zero => intro i cur hi _ _; omega
  | succ n ih =>
    intro i cur hi hpre he
    cases i with
    | zero =>
      unfold calcGo
      rw [show cur + 0 = cur from rfl] at he
      rw [he]
    | succ k =>
      have h0 : isOtherE (eph obs cur tz) = false := by
        have := hpre 0 (Nat.succ_pos k)
        simpa using this
      have hpre' : ∀ j, j < k → isOtherE (eph obs (cur + 1 + j) tz) = false := by
        intro j hj
        have := hpre (j + 1) (by omega)
        simpa [Nat.add_assoc, Nat.add_comm 1 j] using this
      have he' : eph obs (cur + 1 + k) tz = .error (.otherError m) := by
        have : cur + 1 + k = cur + (k + 1) := by omega
        rw [this]
        exact he
      have hrec := ih k (cur + 1) (by omega) hpre' he'
      unfold calcGo
      cases hd : eph obs cur tz with
      | ok s => rw [hrec]
      | error e =>
        cases e with
        | valueError m2 => rw [hrec]
        | otherError m2 => rw [hd] at h0; simp [isOtherE] at h0

/-- The predicate `isLeap` is the Gregorian leap-year rule: divisible by 4, except
centuries not divisible by 400. -/
lemma isLeap_iff (y : Nat) :
    isLeap y = true ↔ (y % 4 = 0 ∧ (y % 100 ≠ 0 ∨ y % 400 = 0)) := by
  unfold isLeap
  simp [Bool.and_eq_true, Bool.or_eq_true, beq_iff_eq, bne_iff_ne]

lemma daysInYear_rule (y : Nat) :
    daysInYear y = if y % 4 = 0 ∧ (y % 100 ≠ 0 ∨ y % 400 = 0) then 366 else 365 := by
  unfold daysInYear
  by_cases h : y % 4 = 0 ∧ (y % 100 ≠ 0 ∨ y % 400 = 0)
  · rw [if_pos h, if_pos ((isLeap_iff y).mpr h)]
  · rw [if_neg h, if_neg (fun hh => h ((isLeap_iff y).mp hh))]

/-- January 1 does not come after December 31 of the same year. -/
lemma ord_jan1_le (y : Nat) : toOrdinal y 1 1 ≤ toOrdinal y 12 31 := by
  unfold toOrdinal daysBeforeMonth daysBeforeMonthTable
  by_cases h : isLeap y <;> simp [h]

lemma range'_getLast (s n : Nat) (h : n ≠ 0) :
    (List.range' s n).getLast? = some (s + (n - 1)) := by
  cases n with
  | zero => exact absurd rfl h
  | succ m =>
    rw [List.range'_1_concat, List.getLast?_concat]
    congr 1

/-! ### C1 -/

/-- C1: for every position and every year, against an ephemeris
collaborator that raises nothing the calculator does not catch,
`calculate_year` returns a dates list that is exactly the consecutive
ascending ordinal sequence from January 1 to December 31 of that year —
one record per calendar day, no gaps, no duplicates — of length 365 for
common years and 366 for leap years under the Gregorian rule. -/
theorem C1_year_series_complete (eph : Ephemeris) (c : SunCalculator) (y : Nat)
    (h : ∀ d : Nat, isOtherE (eph c.observer d c.timezone) = false) :
    datesOf (calculate_year eph c y) =
      List.range' (toOrdinal y 1 1)
        (if y % 4 = 0 ∧ (y % 100 ≠ 0 ∨ y % 400 = 0) then 366 else 365) ∧
    (datesOf (calculate_year eph c y)).length =
      (if y % 4 = 0 ∧ (y % 100 ≠ 0 ∨ y % 400 = 0) then 366 else 365) ∧
    (datesOf (calculate_year eph c y)).getLast? = some (toOrdinal y 12 31) ∧
    (∀ i : Nat, i < (datesOf (calculate_year eph c y)).length →
      (datesOf (calculate_year eph c y))[i]? = some (toOrdinal y 1 1 + i)) ∧
    (datesOf (calculate_year eph c y)).Nodup := by
  have hds : datesOf (calculate_year eph c y) =
      List.range' (toOrdinal y 1 1) (daysInYear y) := by
    unfold calculate_year
    rw [yearLen_eq, calcGo_ok eph c.observer c.timezone (daysInYear y)
      (toOrdinal y 1 1) (fun j _ => h _)]
    rfl
  have hlen : daysInYear y ≠ 0 := by
    rw [daysInYear_rule]; split <;> omega
  refine ⟨by rw [hds, daysInYear_rule], ?_, ?_, ?_, ?_⟩
  · rw [hds, List.length_range', daysInYear_rule]
  · rw [hds, range'_getLast _ _ hlen]
    have h1 := yearLen_eq y
    have h2 := ord_jan1_le y
    congr 1
    omega
  · intro i hi
    rw [hds] at hi ⊢
    rw [List.length_range'] at hi
    simpa using List.getElem?_range' (toOrdinal y 1 1) 1 hi
  · rw [hds]
    exact List.nodup_range' _ _

/-- Witness for C1: a concrete always-successful ephemeris at the equator
position for year 2025 satisfies the hypothesis, and 2025 is a common
year. -/
theorem C1_year_series_complete_witness :
    (∀ d : Nat, isOtherE (eph0 c0.observer d c0.timezone) = false) ∧
    (datesOf (calculate_year eph0 c0 2025) =
      List.range' (toOrdinal 2025 1 1)
        (if 2025 % 4 = 0 ∧ (2025 % 100 ≠ 0 ∨ 2025 % 400 = 0) then 366 else 365) ∧
    (datesOf (calculate_year eph0 c0 2025)).length =
      (if 2025 % 4 = 0 ∧ (2025 % 100 ≠ 0 ∨ 2025 % 400 = 0) then 366 else 365) ∧
    (datesOf (calculate_year eph0 c0 2025)).getLast? = some (toOrdinal 2025 12 31) ∧
    (∀ i : Nat, i < (datesOf (calculate_year eph0 c0 2025)).length →
      (datesOf (calculate_year eph0 c0 2025))[i]? = some (toOrdinal 2025 1 1 + i)) ∧
    (datesOf (calculate_year eph0 c0 2025)).Nodup) :=
  ⟨fun _ => rfl, C1_year_series_complete eph0 c0 2025 (fun _ => rfl)⟩

/-! ### Year-level corollaries of the loop lemmas -/

/-- Per-index absence alignment of the three time lists of any
`calculate_year` result (trivially for a raised call, whose lists are
empty). -/
lemma calculate_year_align (eph : Ephemeris) (c : SunCalculator) (y : Nat) (i : Nat) :
    ((risesOf (calculate_year eph c y))[i]? = some none ↔
      (noonsOf (calculate_year eph c y))[i]? = some none) ∧
    ((risesOf (calculate_year eph c y))[i]? = some none ↔
      (setsOf (calculate_year eph c y))[i]? = some none) := by
  unfold calculate_year
  cases hres : calcGo eph c.observer c.timezone
      (toOrdinal y 12 31 + 1 - toOrdinal y 1 1) (toOrdinal y 1 1) with
  | ok out =>
    obtain ⟨hl1, hl2, hl3, hidx⟩ := calcGo_shape eph c.observer c.timezone _ _ out hres
    obtain ⟨ha, hb⟩ := hidx i
    exact ⟨by simpa [risesOf, noonsOf] using ha, by simpa [risesOf, setsOf] using hb⟩
  | error e => simp [risesOf, noonsOf, setsOf]

/-- The three time lists of any `calculate_year` result track the dates
list in length. -/
lemma calculate_year_lengths (eph : Ephemeris) (c : SunCalculator) (y : Nat) :
    (risesOf (calculate_year eph c y)).length = (datesOf (calculate_year eph c y)).length ∧
    (noonsOf (calculate_year eph c y)).length = (datesOf (calculate_year eph c y)).length ∧
    (setsOf (calculate_year eph c y)).length = (datesOf (calculate_year eph c y)).length := by
  unfold calculate_year
  cases hres : calcGo eph c.observer c.timezone
      (toOrdinal y 12 31 + 1 - toOrdinal y 1 1) (toOrdinal y 1 1) with
  | ok out =>
    obtain ⟨hl1, hl2, hl3, _⟩ := calcGo_shape eph c.observer c.timezone _ _ out hres
    exact ⟨by simpa [risesOf, datesOf] using hl1, by simpa [noonsOf, datesOf] using hl2,
           by simpa [setsOf, datesOf] using hl3⟩
  | error e => simp [risesOf, noonsOf, setsOf, datesOf]

/-- Under a collaborator with no uncaught exceptions, the three time lists
are the pointwise `dayOpt` image of the date range. -/
lemma calculate_year_maps (eph : Ephemeris) (c : SunCalculator) (y : Nat)
    (h : ∀ d : Nat, isOtherE (eph c.observer d c.timezone) = false) :
    risesOf (calculate_year eph c y) =
      (List.range' (toOrdinal y 1 1) (daysInYear y)).map
        (fun d => dayOpt SunTimes.sunrise (eph c.observer d c.timezone)) ∧
    noonsOf (calculate_year eph c y) =
      (List.range' (toOrdinal y 1 1) (daysInYear y)).map
        (fun d => dayOpt SunTimes.noon (eph c.observer d c.timezone)) ∧
    setsOf (calculate_year eph c y) =
      (List.range' (toOrdinal y 1 1) (daysInYear y)).map
        (fun d => dayOpt SunTimes.sunset (eph c.observer d c.timezone)) := by
  unfold calculate_year
  rw [yearLen_eq, calcGo_ok eph c.observer c.timezone (daysInYear y)
    (toOrdinal y 1 1) (fun j _ => h _)]
  exact ⟨rfl, rfl, rfl⟩

/-! ### C2 -/

/-- C2: against a collaborator whose only failures are the polar
singularity signal (`ValueError`), `calculate_year` never raises: it
returns normally, its dates still cover every day of the year, the series
is not truncated, and every singular date's record has sunrise, noon and
sunset all absent. -/
theorem C2_polar_containment (eph : Ephemeris) (c : SunCalculator) (y : Nat)
    (h : ∀ d : Nat, isOtherE (eph c.observer d c.timezone) = false) :
    yearOk (calculate_year eph c y) = true ∧
    datesOf (calculate_year eph c y) = List.range' (toOrdinal y 1 1) (daysInYear y) ∧
    (risesOf (calculate_year eph c y)).length = daysInYear y ∧
    (noonsOf (calculate_year eph c y)).length = daysInYear y ∧
    (setsOf (calculate_year eph c y)).length = daysInYear y ∧
    ∀ i : Nat, i < daysInYear y → ∀ m : String,
      eph c.observer (toOrdinal y 1 1 + i) c.timezone = .error (.valueError m) →
      (risesOf (calculate_year eph c y))[i]? = some none ∧
      (noonsOf (calculate_year eph c y))[i]? = some none ∧
      (setsOf (calculate_year eph c y))[i]? = some none := by
  obtain ⟨hr, hn, hs⟩ := calculate_year_maps eph c y h
  have hok : yearOk (calculate_year eph c y) = true := by
    unfold calculate_year
    rw [yearLen_eq, calcGo_ok eph c.observer c.timezone (daysInYear y)
      (toOrdinal y 1 1) (fun j _ => h _)]
    rfl
  have hds : datesOf (calculate_year eph c y) =
      List.range' (toOrdinal y 1 1) (daysInYear y) := by
    unfold calculate_year
    rw [yearLen_eq, calcGo_ok eph c.observer c.timezone (daysInYear y)
      (toOrdinal y 1 1) (fun j _ => h _)]
    rfl
  refine ⟨hok, hds, by rw [hr]; simp, by rw [hn]; simp, by rw [hs]; simp, ?_⟩
  intro i hi m hm
  have hidx : (List.range' (toOrdinal y 1 1) (daysInYear y))[i]? =
      some (toOrdinal y 1 1 + i) := by
    simpa using List.getElem?_range' (toOrdinal y 1 1) 1 hi
  refine ⟨?_, ?_, ?_⟩
  · rw [hr, List.getElem?_map, hidx]
    simp [dayOpt, hm]
  · rw [hn, List.getElem?_map, hidx]
    simp [dayOpt, hm]
  · rw [hs, List.getElem?_map, hidx]
    simp [dayOpt, hm]

/-- Witness for C2: an Arctic position in 2025 with an ephemeris that
signals the singularity on 2025-06-01 and succeeds elsewhere. -/
theorem C2_polar_containment_witness :
    (∀ d : Nat, isOtherE (ephArctic cArctic.observer d cArctic.timezone) = false) ∧
    (yearOk (calculate_year ephArctic cArctic 2025) = true ∧
    datesOf (calculate_year ephArctic cArctic 2025) =
      List.range' (toOrdinal 2025 1 1) (daysInYear 2025) ∧
    (risesOf (calculate_year ephArctic cArctic 2025)).length = daysInYear 2025 ∧
    (noonsOf (calculate_year ephArctic cArctic 2025)).length = daysInYear 2025 ∧
    (setsOf (calculate_year ephArctic cArctic 2025)).length = daysInYear 2025 ∧
    ∀ i : Nat, i < daysInYear 2025 → ∀ m : String,
      ephArctic cArctic.observer (toOrdinal 2025 1 1 + i) cArctic.timezone =
        .error (.valueError m) →
      (risesOf (calculate_year ephArctic cArctic 2025))[i]? = some none ∧
      (noonsOf (calculate_year ephArctic cArctic 2025))[i]? = some none ∧
      (setsOf (calculate_year ephArctic cArctic 2025))[i]? = some none) :=
  ⟨fun d => by unfold ephArctic; split <;> rfl,
   C2_polar_containment ephArctic cArctic 2025
     (fun d => by unfold ephArctic; split <;> rfl)⟩

/-! ### C3 -/

/-- C3: every present sunrise, solar-noon or sunset value in a
`calculate_year` result lies in the half-open interval `[0, 24)`; exactly
`24` never appears, because wall-clock hour components are in `[0, 23]`. -/
theorem C3_range_invariant (eph : Ephemeris) (c : SunCalculator) (y : Nat) :
    ∀ v : ℚ,
      (some v ∈ risesOf (calculate_year eph c y) ∨
       some v ∈ noonsOf (calculate_year eph c y) ∨
       some v ∈ setsOf (calculate_year eph c y)) →
      0 ≤ v ∧ v < 24 := by
  intro v hv
  unfold calculate_year at hv
  cases hres : calcGo eph c.observer c.timezone
      (toOrdinal y 12 31 + 1 - toOrdinal y 1 1) (toOrdinal y 1 1) with
  | ok out =>
    rw [hres] at hv
    refine calcGo_mem_bound eph c.observer c.timezone _ _ out hres v ?_
    simpa [risesOf, noonsOf, setsOf] using hv
  | error e =>
    rw [hres] at hv
    simp [risesOf, noonsOf, setsOf] at hv

/-- The sunrise value reported by the constant ephemeris appears in the
sunrise list of any year's series for it. -/
lemma eph0_sunrise_mem (y : Nat) :
    some (toHour st0.sunrise) ∈ risesOf (calculate_year eph0 c0 y) := by
  obtain ⟨hr, _, _⟩ := calculate_year_maps eph0 c0 y (fun _ => rfl)
  rw [hr]
  have h0 : (List.range' (toOrdinal y 1 1) (daysInYear y))[0]? =
      some (toOrdinal y 1 1) := by
    have hpos : 0 < daysInYear y := by
      unfold daysInYear; split <;> omega
    simpa using List.getElem?_range' (toOrdinal y 1 1) 1 hpos
  have hm := List.getElem?_map
    (fun d => dayOpt SunTimes.sunrise (eph0 c0.observer d c0.timezone))
    (List.range' (toOrdinal y 1 1) (daysInYear y)) 0
  rw [h0] at hm
  exact List.getElem?_mem hm

/-- Witness for C3: the constant ephemeris reports sunrise 06:30:00, whose
decimal hour 6.5 appears in the sunrise list of year 2025 and is inside
`[0, 24)`. -/
theorem C3_range_invariant_witness :
    (some (toHour st0.sunrise) ∈ risesOf (calculate_year eph0 c0 2025) ∨
     some (toHour st0.sunrise) ∈ noonsOf (calculate_year eph0 c0 2025) ∨
     some (toHour st0.sunrise) ∈ setsOf (calculate_year eph0 c0 2025)) ∧
    (0 ≤ toHour st0.sunrise ∧ toHour st0.sunrise < 24) ∧
    toHour st0.sunrise = 13 / 2 :=
  ⟨Or.inl (eph0_sunrise_mem 2025),
   C3_range_invariant eph0 c0 2025 (toHour st0.sunrise)
     (Or.inl (eph0_sunrise_mem 2025)),
   by
     have e1 : (st0.sunrise.hour : Nat) = 6 := rfl
     have e2 : (st0.sunrise.minute : Nat) = 30 := rfl
     have e3 : (st0.sunrise.second : Nat) = 0 := rfl
     rw [toHour_eq, e1, e2, e3]
     norm_num⟩

/-! ### C4 -/

/-- C4: in the successful case each of the three time lists is obtained by
the one shared conversion — `hour + minute/60 + second/3600` on the
wall-clock components of the zoned instant the ephemeris returned for that
date — applied pointwise over the date range (`dayOpt` wraps exactly that
conversion; the final conjunct spells the formula out). -/
theorem C4_hour_conversion (eph : Ephemeris) (c : SunCalculator) (y : Nat)
    (h : ∀ d : Nat, isOtherE (eph c.observer d c.timezone) = false) :
    risesOf (calculate_year eph c y) =
      (List.range' (toOrdinal y 1 1) (daysInYear y)).map
        (fun d => dayOpt SunTimes.sunrise (eph c.observer d c.timezone)) ∧
    noonsOf (calculate_year eph c y) =
      (List.range' (toOrdinal y 1 1) (daysInYear y)).map
        (fun d => dayOpt SunTimes.noon (eph c.observer d c.timezone)) ∧
    setsOf (calculate_year eph c y) =
      (List.range' (toOrdinal y 1 1) (daysInYear y)).map
        (fun d => dayOpt SunTimes.sunset (eph c.observer d c.timezone)) ∧
    (∀ f : SunTimes → ZonedDT, ∀ s : SunTimes,
      dayOpt f (.ok s) = some (toHour (f s))) ∧
    (∀ t : ZonedDT,
      toHour t = (t.hour : ℚ) + (t.minute : ℚ) / 60 + (t.second : ℚ) / 3600) := by
  obtain ⟨hr, hn, hs⟩ := calculate_year_maps eph c y h
  exact ⟨hr, hn, hs, fun f s => rfl, fun t => rfl⟩

/-- Witness for C4: the constant successful ephemeris at the equator
position for 2025. -/
theorem C4_hour_conversion_witness :
    (∀ d : Nat, isOtherE (eph0 c0.observer d c0.timezone) = false) ∧
    (risesOf (calculate_year eph0 c0 2025) =
      (List.range' (toOrdinal 2025 1 1) (daysInYear 2025)).map
        (fun d => dayOpt SunTimes.sunrise (eph0 c0.observer d c0.timezone)) ∧
    noonsOf (calculate_year eph0 c0 2025) =
      (List.range' (toOrdinal 2025 1 1) (daysInYear 2025)).map
        (fun d => dayOpt SunTimes.noon (eph0 c0.observer d c0.timezone)) ∧
    setsOf (calculate_year eph0 c0 2025) =
      (List.range' (toOrdinal 2025 1 1) (daysInYear 2025)).map
        (fun d => dayOpt SunTimes.sunset (eph0 c0.observer d c0.timezone)) ∧
    (∀ f : SunTimes → ZonedDT, ∀ s : SunTimes,
      dayOpt f (.ok s) = some (toHour (f s))) ∧
    (∀ t : ZonedDT,
      toHour t = (t.hour : ℚ) + (t.minute : ℚ) / 60 + (t.second : ℚ) / 3600)) :=
  ⟨fun _ => rfl, C4_hour_conversion eph0 c0 2025 (fun _ => rfl)⟩

/-! ### C5 -/

/-- C5 (amended): absence in a year series is per-day all-or-nothing, not
per-event: at every index, the sunrise entry is `None` exactly when the
solar-noon entry is `None`, and exactly when the sunset entry is `None`.
A record with sunrise absent but solar noon present never occurs, for any
ephemeris behaviour, because the `except ValueError` branch appends `None`
to all three lists at once. -/
theorem C5_absence_all_or_nothing (eph : Ephemeris) (c : SunCalculator) (y : Nat) :
    ∀ i : Nat,
      ((risesOf (calculate_year eph c y))[i]? = some none ↔
        (noonsOf (calculate_year eph c y))[i]? = some none) ∧
      ((risesOf (calculate_year eph c y))[i]? = some none ↔
        (setsOf (calculate_year eph c y))[i]? = some none) :=
  fun i => calculate_year_align eph c y i

/-- Counterexample to C5 as stated: no ephemeris, position, year and index
whatsoever yield a record whose sunrise entry is absent while its
solar-noon entry is present. -/
theorem C5_counterexample :
    ¬ ∃ (eph : Ephemeris) (c : SunCalculator) (y i : Nat) (v : ℚ),
        (risesOf (calculate_year eph c y))[i]? = some none ∧
        (noonsOf (calculate_year eph c y))[i]? = some (some v) := by
  rintro ⟨eph, c, y, i, v, h1, h2⟩
  have h3 := ((calculate_year_align eph c y i).1).mp h1
  rw [h2] at h3
  cases h3

/-! ### C6 -/

/-- C6 (amended): in every record where sunrise and sunset are both
present, if the ephemeris-reported sunrise instant's wall-clock
(hour, minute, second) precedes the sunset instant's, then the sunrise
decimal hour is strictly below the sunset decimal hour.  (The
unconditional claim fails: the conversion reads wall-clock components
only, so a sunset rendered past local midnight — or a time zone far from
the location, such as the constructor's `"UTC"` default for a far-east
position — inverts the order; see the counterexample.) -/
theorem C6_sunrise_before_sunset (eph : Ephemeris) (c : SunCalculator) (y : Nat)
    (h : ∀ d : Nat, isOtherE (eph c.observer d c.timezone) = false)
    (hord : ∀ d : Nat, ∀ s : SunTimes, eph c.observer d c.timezone = .ok s →
      wallLt s.sunrise s.sunset) :
    ∀ i : Nat, ∀ r t : ℚ,
      (risesOf (calculate_year eph c y))[i]? = some (some r) →
      (setsOf (calculate_year eph c y))[i]? = some (some t) →
      r < t := by
  obtain ⟨hr, -, hs⟩ := calculate_year_maps eph c y h
  intro i r t h1 h2
  rw [hr, List.getElem?_map] at h1
  rw [hs, List.getElem?_map] at h2
  cases hd : (List.range' (toOrdinal y 1 1) (daysInYear y))[i]? with
  | none => rw [hd] at h1; cases h1
  | some d =>
    rw [hd] at h1 h2
    simp only [Option.map_some'] at h1 h2
    cases he : eph c.observer d c.timezone with
    | ok s =>
      rw [he] at h1 h2
      simp only [dayOpt, Option.some.injEq] at h1 h2
      rw [← h1, ← h2]
      exact toHour_strictMono (hord d s he)
    | error e =>
      rw [he] at h1
      simp [dayOpt] at h1

/-- Witness for the amended C6: the constant ephemeris reports sunrise
06:30:00 and sunset 18:30:00, which are wall-clock ordered, so the
decimal values are ordered in every record of 2025. -/
theorem C6_sunrise_before_sunset_witness :
    (∀ d : Nat, isOtherE (eph0 c0.observer d c0.timezone) = false) ∧
    (∀ d : Nat, ∀ s : SunTimes, eph0 c0.observer d c0.timezone = .ok s →
      wallLt s.sunrise s.sunset) ∧
    (∀ i : Nat, ∀ r t : ℚ,
      (risesOf (calculate_year eph0 c0 2025))[i]? = some (some r) →
      (setsOf (calculate_year eph0 c0 2025))[i]? = some (some t) →
      r < t) :=
  ⟨fun _ => rfl,
   fun _ s hds => (Except.ok.inj hds) ▸ (by decide : wallLt st0.sunrise st0.sunset),
   C6_sunrise_before_sunset eph0 c0 2025 (fun _ => rfl)
     (fun _ s hds => (Except.ok.inj hds) ▸ (by decide : wallLt st0.sunrise st0.sunset))⟩

/-- Counterexample to C6 as stated: an ephemeris whose reported sunset
falls past local midnight (wall clock 01:00, after a 23:00 sunrise)
produces a record of 2025 with both values present and
sunrise 23 > sunset 1 — the strict inequality of the claim fails. -/
theorem C6_counterexample :
    (risesOf (calculate_year ephInv c0 2025))[0]? = some (some (toHour stInv.sunrise)) ∧
    (setsOf (calculate_year ephInv c0 2025))[0]? = some (some (toHour stInv.sunset)) ∧
    toHour stInv.sunrise = 23 ∧ toHour stInv.sunset = 1 ∧ ¬ ((23 : ℚ) < 1) := by
  obtain ⟨hr, -, hs⟩ := calculate_year_maps ephInv c0 2025 (fun _ => rfl)
  have h0 : (List.range' (toOrdinal 2025 1 1) (daysInYear 2025))[0]? =
      some (toOrdinal 2025 1 1) := by
    have hpos : 0 < daysInYear 2025 := by unfold daysInYear; split <;> omega
    simpa using List.getElem?_range' (toOrdinal 2025 1 1) 1 hpos
  refine ⟨?_, ?_, ?_, ?_, by norm_num⟩
  · rw [hr, List.getElem?_map, h0]; rfl
  · rw [hs, List.getElem?_map, h0]; rfl
  · have e1 : (stInv.sunrise.hour : Nat) = 23 := rfl
    have e2 : (stInv.sunrise.minute : Nat) = 0 := rfl
    have e3 : (stInv.sunrise.second : Nat) = 0 := rfl
    rw [toHour_eq, e1, e2, e3]
    norm_num
  · have e1 : (stInv.sunset.hour : Nat) = 1 := rfl
    have e2 : (stInv.sunset.minute : Nat) = 0 := rfl
    have e3 : (stInv.sunset.second : Nat) = 0 := rfl
    rw [toHour_eq, e1, e2, e3]
    norm_num

/-! ### C7 -/

/-- C7: `calculate_day` returns exactly the pair of full zoned instants
`(sunrise, sunset)` from the ephemeris — no solar noon is computed or
returned (the result type has only the two components) — and on a date
whose `sun` call raises the singularity `ValueError`, it returns both
values absent instead of raising. -/
theorem C7_day_pair (eph : Ephemeris) (c : SunCalculator) (d : Nat) :
    (∀ s : SunTimes, eph c.observer d c.timezone = .ok s →
      calculate_day eph c d = .ok (some s.sunrise, some s.sunset)) ∧
    (∀ m : String, eph c.observer d c.timezone = .error (.valueError m) →
      calculate_day eph c d = .ok (none, none)) := by
  constructor
  · intro s hs
    unfold calculate_day
    rw [hs]
  · intro m hm
    unfold calculate_day
    rw [hm]

/-- Witness for C7: the constant ephemeris on an arbitrary concrete date
ordinal. -/
theorem C7_day_pair_witness :
    eph0 c0.observer 738887 c0.timezone = .ok st0 ∧
    calculate_day eph0 c0 738887 = .ok (some st0.sunrise, some st0.sunset) :=
  ⟨rfl, (C7_day_pair eph0 c0 738887).1 st0 rfl⟩

/-! ### C8 -/

/-- C8: only the `ValueError` singularity signal is contained (as absent
values); any other exception from the collaborator propagates to the
caller unchanged — from `calculate_day` directly, and from
`calculate_year` as soon as it reaches the failing date, with no partial
result. -/
theorem C8_error_propagation (eph : Ephemeris) (c : SunCalculator) :
    (∀ d : Nat, ∀ m : String,
      eph c.observer d c.timezone = .error (.valueError m) →
      calculate_day eph c d = .ok (none, none)) ∧
    (∀ d : Nat, ∀ m : String,
      eph c.observer d c.timezone = .error (.otherError m) →
      calculate_day eph c d = .error (.otherError m)) ∧
    (∀ y i : Nat, ∀ m : String, i < daysInYear y →
      (∀ j, j < i → isOtherE (eph c.observer (toOrdinal y 1 1 + j) c.timezone) = false) →
      eph c.observer (toOrdinal y 1 1 + i) c.timezone = .error (.otherError m) →
      calculate_year eph c y = .error (.otherError m)) := by
  refine ⟨?_, ?_, ?_⟩
  · intro d m hm
    unfold calculate_day
    rw [hm]
  · intro d m hm
    unfold calculate_day
    rw [hm]
  · intro y i m hi hpre he
    unfold calculate_year
    rw [yearLen_eq]
    exact calcGo_error eph c.observer c.timezone m (daysInYear y) i
      (toOrdinal y 1 1) hi hpre he

/-- Witness for C8: an ephemeris that always raises an uncaught exception;
it propagates out of both operations (for the year, from January 1, with
every hypothesis discharged concretely). -/
theorem C8_error_propagation_witness :
    (0 < daysInYear 1) ∧
    ephBad c0.observer (toOrdinal 1 1 1 + 0) c0.timezone =
      .error (.otherError "zoneinfo lookup failed") ∧
    calculate_year ephBad c0 1 = .error (.otherError "zoneinfo lookup failed") ∧
    calculate_day ephBad c0 5 = .error (.otherError "zoneinfo lookup failed") :=
  ⟨by decide, rfl,
   (C8_error_propagation ephBad c0).2.2 1 0 "zoneinfo lookup failed" (by decide)
     (fun j hj => absurd hj (Nat.not_lt_zero j)) rfl,
   (C8_error_propagation ephBad c0).2.1 5 "zoneinfo lookup failed" rfl⟩

/-! ### C9 -/

/-- C9: `calculate_day` is deterministic — two calls with identical
(position, date) inputs against the same ephemeris collaborator yield
identical outputs.  In the embedding the method reads only its arguments
and the instance fields set in `__init__`; it threads no mutable state, so
the result is a pure function of (ephemeris, calculator, date). -/
theorem C9_day_deterministic (eph : Ephemeris) (ca cb : SunCalculator)
    (da db : Nat) (hc : ca = cb) (hd : da = db) :
    calculate_day eph ca da = calculate_day eph cb db := by
  rw [hc, hd]

/-- Witness for C9: two identical concrete calls agree. -/
theorem C9_day_deterministic_witness :
    c0 = c0 ∧ (5 : Nat) = 5 ∧
    calculate_day eph0 c0 5 = calculate_day eph0 c0 5 :=
  ⟨rfl, rfl, C9_day_deterministic eph0 c0 c0 5 5 rfl rfl⟩

/-! ### C10 -/

/-- C10: the four lists of a `calculate_year` result always have equal
length, and at every index the sunrise, noon and sunset entries are
present or absent together — each loop pass appends to all four lists at
once, either three present values or three `None`s. -/
theorem C10_parallel_lists (eph : Ephemeris) (c : SunCalculator) (y : Nat) :
    (risesOf (calculate_year eph c y)).length = (datesOf (calculate_year eph c y)).length ∧
    (noonsOf (calculate_year eph c y)).length = (datesOf (calculate_year eph c y)).length ∧
    (setsOf (calculate_year eph c y)).length = (datesOf (calculate_year eph c y)).length ∧
    ∀ i : Nat,
      ((noonsOf (calculate_year eph c y))[i]? = some none ↔
        (risesOf (calculate_year eph c y))[i]? = some none) ∧
      ((setsOf (calculate_year eph c y))[i]? = some none ↔
        (risesOf (calculate_year eph c y))[i]? = some none) := by
  obtain ⟨l1, l2, l3⟩ := calculate_year_lengths eph c y
  refine ⟨l1, l2, l3, fun i => ?_⟩
  obtain ⟨ha, hb⟩ := calculate_year_align eph c y i
  exact ⟨ha.symm, hb.symm⟩
